import Mathlib

/-!
# Verification of the commit-buddy terminal UI core

Shallow embedding of the status/diff parsing routines and the mode-controller
state of `src/interactive.rs` and `src/git.rs`, with theorems settling the
frozen specification claims.

Strings are modelled as lists of characters (`Str`).  The Rust code indexes
lines by byte; for the ASCII inputs considered here byte indices and
character indices coincide, and the model notes explicitly where a Rust
byte-slice `&line[i..]` would abort (index past the end of the string).
-/

/-- Character-list model of a Rust `String` / `&str`. -/
abbrev Str := List Char

/-- Convenience conversion from a Lean string literal to the model type. -/
def chars (s : String) : Str := s.toList

/-- Removes one trailing carriage return, as Rust `str::lines` does for a
line terminated by the two-character CR-LF ending. -/
def stripCr (l : Str) : Str :=
  if l.getLast? = some '\r' then l.dropLast else l

/-- Accumulator-based splitter behind `rustLines`. -/
def rustLinesAux : Str → Str → List Str
  | [], acc => if acc = [] then [] else [acc.reverse]
  | '\n' :: cs, acc => stripCr acc.reverse :: rustLinesAux cs []
  | c :: cs, acc => rustLinesAux cs (c :: acc)

/-- Model of Rust `str::lines`: split at newline characters, strip a carriage
return standing immediately before a newline, and do not produce a final
empty line for a trailing newline. -/
def rustLines (s : Str) : List Str := rustLinesAux s []

/-- The three file lists built by `InteractiveCli::update_git_status` from
`git status --porcelain` output (the `staged_files`, `unstaged_files` and
`untracked_files` fields of the `GitStatus` struct). -/
structure StatusLists where
  staged : List Str
  unstaged : List Str
  untracked : List Str
deriving DecidableEq, Repr

/-- One iteration of the parsing loop of `update_git_status`
(src/interactive.rs lines 859-875):

* lines with fewer than 2 characters fail the `line.len() >= 2` guard and
  are skipped;
* for lines passing the guard the code binds `status = &line[0..2]` and
  `file = &line[3..]` before matching; on a line of exactly 2 characters the
  slice `&line[3..]` starts past the end of the string and Rust aborts the
  process (modelled as `none`);
* the two-character code is matched exactly; unrecognised codes leave the
  lists unchanged.

Pushes append at the end of the lists, preserving encounter order. -/
def processStatusLine (st : StatusLists) (line : Str) : Option StatusLists :=
  if 2 ≤ line.length then
    if 3 ≤ line.length then
      let code := line.take 2
      let file := line.drop 3
      if code = chars "A " ∨ code = chars "M " ∨ code = chars "D " then
        some { st with staged := st.staged ++ [file] }
      else if code = chars " M" ∨ code = chars " D" then
        some { st with unstaged := st.unstaged ++ [file] }
      else if code = chars "??" then
        some { st with untracked := st.untracked ++ [file] }
      else if code = chars "AM" ∨ code = chars "MM" then
        some { st with staged := st.staged ++ [file],
                       unstaged := st.unstaged ++ [file] }
      else
        some st
    else
      none
  else
    some st

/-- The status-parsing loop of `InteractiveCli::update_git_status` applied to
the raw `git status --porcelain` output, starting from the freshly cleared
lists.  `none` models a Rust abort inside the loop. -/
def updateGitStatusParse (statusOutput : Str) : Option StatusLists :=
  (rustLines statusOutput).foldlM processStatusLine ⟨[], [], []⟩

/-- `FileStatus` from src/interactive.rs. -/
inductive FileStatus where
  | staged
  | modified
  | untracked
  | deleted
deriving DecidableEq, Repr

/-- `FileItem` from src/interactive.rs. -/
structure FileItem where
  path : Str
  status : FileStatus
  selected : Bool
deriving DecidableEq, Repr

/-- One iteration of the parsing loop of `InteractiveCli::load_file_items`
(src/interactive.rs lines 1105-1124).  Same slicing behaviour as
`processStatusLine`, including the abort on a line of exactly 2 characters;
codes outside the table hit the `continue` arm and add no entry. -/
def processFileLine (items : List FileItem) (line : Str) :
    Option (List FileItem) :=
  if 2 ≤ line.length then
    if 3 ≤ line.length then
      let code := line.take 2
      let file := line.drop 3
      if code = chars "A " ∨ code = chars "M " ∨ code = chars "D " then
        some (items ++ [⟨file, FileStatus.staged, false⟩])
      else if code = chars " M" ∨ code = chars " D" then
        some (items ++ [⟨file, FileStatus.modified, false⟩])
      else if code = chars "??" then
        some (items ++ [⟨file, FileStatus.untracked, false⟩])
      else if code = chars "AM" ∨ code = chars "MM" then
        some (items ++ [⟨file, FileStatus.staged, false⟩])
      else
        some items
    else
      none
  else
    some items

/-- The parsing loop of `InteractiveCli::load_file_items` applied to the raw
status output, starting from the cleared `file_items` vector. -/
def loadFileItemsParse (statusOutput : Str) : Option (List FileItem) :=
  (rustLines statusOutput).foldlM processFileLine []

/-! ## Cursor navigation (`navigate_up` / `navigate_down` and the file-list
variants).  The cursor lives in a ratatui `ListState`, modelled as
`Option Nat`; `selected().unwrap_or(0)` is `Option.getD 0`.  `usize`
arithmetic is modelled on `Nat` with an explicit wrap at `2 ^ 64`: the
subtractions `item_count - 1` wrap exactly when `item_count = 0` (in a debug
build that subtraction aborts instead; under either semantics the claims
below are settled the same way). -/

/-- Number of values of the Rust `usize` type. -/
def USIZE : Nat := 2 ^ 64

/-- Wrapping model of the Rust `usize` expression `a - 1` for `a < 2^64`. -/
def wrapPred (a : Nat) : Nat := (a + USIZE - 1) % USIZE

/-- `InteractiveCli::navigate_up` (src/interactive.rs lines 725-733), with
the length of `get_current_menu_items()` passed as `itemCount`. -/
def navigateUp (itemCount : Nat) (sel : Option Nat) : Option Nat :=
  let current := sel.getD 0
  if current > 0 then some (current - 1) else some (wrapPred itemCount)

/-- `InteractiveCli::navigate_down` (src/interactive.rs lines 735-743). -/
def navigateDown (itemCount : Nat) (sel : Option Nat) : Option Nat :=
  let current := sel.getD 0
  if current < wrapPred itemCount then some ((current + 1) % USIZE)
  else some 0

/-- `InteractiveCli::navigate_file_up` (src/interactive.rs lines 1129-1136),
with `self.file_items.len()` passed as `itemCount`. -/
def navigateFileUp (itemCount : Nat) (sel : Option Nat) : Option Nat :=
  let current := sel.getD 0
  if current > 0 then some (current - 1) else some (wrapPred itemCount)

/-- `InteractiveCli::navigate_file_down` (src/interactive.rs lines
1138-1145). -/
def navigateFileDown (itemCount : Nat) (sel : Option Nat) : Option Nat :=
  let current := sel.getD 0
  if current < wrapPred itemCount then some ((current + 1) % USIZE)
  else some 0

/-- An arrow-key press in a list-backed mode. -/
inductive NavKey where
  | up
  | down
deriving DecidableEq, Repr

/-- One navigation key applied to a cursor value through the shared
wrap-around arithmetic of `navigate_up` / `navigate_down`. -/
def navStep (n : Nat) (c : Nat) : NavKey → Nat
  | NavKey.up => (navigateUp n (some c)).getD 0
  | NavKey.down => (navigateDown n (some c)).getD 0

/-- A whole sequence of navigation keys applied to a starting cursor with a
fixed item count. -/
def applyNav (n : Nat) (ks : List NavKey) (c : Nat) : Nat :=
  ks.foldl (navStep n) c

/-- Claim C1: for the status text `"M  a.txt\n?? b.txt\n AM c.txt"` the
parser is claimed to return staged `["a.txt", "c.txt"]`, unstaged
`["c.txt"]`, untracked `["b.txt"]`.  This is false on the code: the third
line carries a leading space, so `update_git_status` reads the two-character
code `" A"`, which matches no arm of the table, and the line is ignored. -/
theorem c1_counterexample :
    updateGitStatusParse (chars "M  a.txt\n?? b.txt\n AM c.txt")
      = some ⟨[chars "a.txt"], [], [chars "b.txt"]⟩
    ∧ updateGitStatusParse (chars "M  a.txt\n?? b.txt\n AM c.txt")
        ≠ some ⟨[chars "a.txt", chars "c.txt"], [chars "c.txt"],
                [chars "b.txt"]⟩ := by
  decide

/-- Claim C1 (amended): with the third line written `"AM c.txt"` — its
two-character code is `AM`, with no stray leading space — the parser
produces exactly staged `["a.txt", "c.txt"]`, unstaged `["c.txt"]`,
untracked `["b.txt"]`, each list in encounter order, the `AM` file being
dual-listed. -/
theorem c1_amended :
    updateGitStatusParse (chars "M  a.txt\n?? b.txt\nAM c.txt")
      = some ⟨[chars "a.txt", chars "c.txt"], [chars "c.txt"],
              [chars "b.txt"]⟩ := by
  decide

/-- Claim C2: the claim says every status line with fewer than 3 characters
is skipped with no effect and no failure.  The code skips lines of length 0
or 1 (first conjunct pair), but a line of exactly 2 characters passes the
`line.len() >= 2` guard and is then sliced as `&line[3..]`, which starts
past the end of the string: the process aborts instead of skipping the line.
This holds for both `update_git_status` and `load_file_items`. -/
theorem c2_two_char_line_aborts :
    updateGitStatusParse (chars "??") = none
    ∧ loadFileItemsParse (chars "??") = none
    ∧ updateGitStatusParse (chars "X\n?? b.txt")
        = some ⟨[], [], [chars "b.txt"]⟩
    ∧ loadFileItemsParse (chars "X\n?? b.txt")
        = some [⟨chars "b.txt", FileStatus.untracked, false⟩] := by
  decide

/-- For a positive item count that fits in `usize`, the wrapping decrement
is the ordinary one. -/
lemma wrapPred_of_pos {n : Nat} (hn : 0 < n) (hU : n < USIZE) :
    wrapPred n = n - 1 := by
  unfold wrapPred
  have h1 : n + USIZE - 1 = (n - 1) + USIZE := by omega
  rw [h1, Nat.add_mod_right]
  exact Nat.mod_eq_of_lt (by omega)

/-- Each navigation step keeps the cursor inside `[0, n)` when `n > 0`. -/
lemma navStep_lt {n c : Nat} (hn : 0 < n) (hU : n < USIZE) (hc : c < n)
    (k : NavKey) : navStep n c k < n := by
  cases k with
  | up =>
    simp only [navStep, navigateUp, wrapPred_of_pos hn hU]
    split
    · simp only [Option.getD_some]; omega
    · simp only [Option.getD_some]; omega
  | down =>
    simp only [navStep, navigateDown, wrapPred_of_pos hn hU]
    split
    · rename_i h
      simp only [Option.getD_some]
      rw [Nat.mod_eq_of_lt (by omega)]
      simp only [Option.getD_some] at h
      omega
    · simp only [Option.getD_some]; omega

/-- The cursor invariant extends to whole key sequences. -/
lemma applyNav_lt {n : Nat} (hn : 0 < n) (hU : n < USIZE)
    (ks : List NavKey) : ∀ c : Nat, c < n → applyNav n ks c < n := by
  induction ks with
  | nil => intro c hc; simpa [applyNav] using hc
  | cons k ks ih =>
    intro c hc
    have h1 : navStep n c k < n := navStep_lt hn hU hc k
    simpa [applyNav, List.foldl_cons] using ih (navStep n c k) h1

/-- Claim C7: with a fixed item count `0 < n < 2^64` and a starting cursor
`c < n`, every sequence of `navigate_up` / `navigate_down` calls keeps the
cursor inside `[0, n)`, and `navigate_down` composed with `navigate_up` is
the identity; `navigate_file_up` / `navigate_file_down` realise the same
wrap-around arithmetic on the file list. -/
theorem navigation_wraparound_contract (n c : Nat) (ks : List NavKey)
    (hn : 0 < n) (hU : n < USIZE) (hc : c < n) :
    applyNav n ks c < n
    ∧ navigateDown n (navigateUp n (some c)) = some c
    ∧ navigateFileUp n (some c) = navigateUp n (some c)
    ∧ navigateFileDown n (some c) = navigateDown n (some c) := by
  refine ⟨applyNav_lt hn hU ks c hc, ?_, rfl, rfl⟩
  simp only [navigateUp, wrapPred_of_pos hn hU, Option.getD_some]
  by_cases h0 : c > 0
  · rw [if_pos h0]
    simp only [navigateDown, wrapPred_of_pos hn hU, Option.getD_some]
    rw [if_pos (by omega)]
    rw [Nat.mod_eq_of_lt (by omega)]
    congr 1
    omega
  · rw [if_neg h0]
    simp only [navigateDown, wrapPred_of_pos hn hU, Option.getD_some]
    rw [if_neg (by omega)]
    congr 1
    omega

/-- Witness for claim C7 at `n = 3`, `c = 1`, keys up-up-down. -/
theorem navigation_wraparound_contract_witness :
    applyNav 3 [NavKey.up, NavKey.up, NavKey.down] 1 < 3
    ∧ navigateDown 3 (navigateUp 3 (some 1)) = some 1
    ∧ navigateFileUp 3 (some 1) = navigateUp 3 (some 1)
    ∧ navigateFileDown 3 (some 1) = navigateDown 3 (some 1) :=
  navigation_wraparound_contract 3 1 [NavKey.up, NavKey.up, NavKey.down]
    (by norm_num) (by norm_num [USIZE]) (by norm_num)

/-- Claim C3: on an empty file list (`item_count = 0`) the claim requires
`navigate_file_up` / `navigate_file_down` to be safe no-ops.  The code
instead computes `self.file_items.len() - 1` with `len() = 0`: the `usize`
subtraction wraps (in a release build) to `2^64 - 1`, so the up key selects
index `2^64 - 1` and the down key selects index `1`, both out of bounds for
the empty list; in a debug build the same subtraction aborts the process.
The cursor starts at `Some(0)` because `enter_file_mode` selects index 0
unconditionally, so this state is reachable. -/
theorem c3_empty_list_navigation_out_of_bounds :
    navigateFileUp 0 (some 0) = some (2 ^ 64 - 1)
    ∧ navigateFileDown 0 (some 0) = some 1
    ∧ ¬ (2 ^ 64 - 1 < 0) ∧ ¬ (1 < 0) := by
  refine ⟨?_, ?_, by omega, by omega⟩
  · simp [navigateFileUp, wrapPred, USIZE]
  · simp [navigateFileDown, wrapPred, USIZE]

/-! ## Menu tables and dispatch (`render_menu`, `get_current_menu_items`,
`handle_git_operation` / `handle_ai_operation` / `handle_utility`). -/

/-- The per-tab menu item list rendered by `InteractiveCli::render_menu`
(src/interactive.rs lines 598-655). -/
def renderMenuItems : Nat → List Str
  | 0 =>
    [chars "📁 Manage files (f)",
     chars "📝 Add files to staging",
     chars "💾 Commit changes",
     chars "🚀 Push to remote",
     chars "📥 Pull from remote",
     chars "🌿 Switch branch",
     chars "🔀 Merge branch",
     chars "📋 View status"]
  | 1 =>
    [chars "✨ Generate PR description",
     chars "🚀 Create PR with AI description",
     chars "🧪 Generate unit tests",
     chars "💬 Improve commit message",
     chars "📝 Interactive commit",
     chars "📋 Generate changelog",
     chars "🔍 Code review"]
  | 2 =>
    [chars "🔄 Refresh status",
     chars "⚙️ Configuration",
     chars "❌ Exit"]
  | _ => []

/-- The per-tab menu item list returned by
`InteractiveCli::get_current_menu_items` (src/interactive.rs lines 759-785),
whose length bounds cursor navigation on the main screen. -/
def getCurrentMenuItems : Nat → List Str
  | 0 =>
    [chars "📝 Add files to staging",
     chars "💾 Commit changes",
     chars "🚀 Push to remote",
     chars "📥 Pull from remote",
     chars "🌿 Switch branch",
     chars "🔀 Merge branch",
     chars "📋 View status"]
  | 1 =>
    [chars "✨ Generate PR description",
     chars "🧪 Generate unit tests",
     chars "💬 Improve commit message",
     chars "📝 Interactive commit",
     chars "📋 Generate changelog",
     chars "🔍 Code review"]
  | 2 =>
    [chars "🔄 Refresh status",
     chars "⚙️ Configuration",
     chars "❌ Exit"]
  | _ => []

/-- The actions reachable from the main-menu dispatchers. -/
inductive MenuAction where
  | enterFileMode
  | addFilesToStaging
  | commitChanges
  | pushToRemote
  | pullFromRemote
  | switchBranch
  | mergeBranch
  | viewStatus
  | showPrDescription
  | createPrWithAiDescription
  | showGeneratedTests
  | showImprovedCommitMessage
  | startInteractiveCommitAction
  | showChangelog
  | showCodeReview
  | updateGitStatusAction
  | showConfiguration
  | setQuit
deriving DecidableEq, Repr

/-- Index-to-action table of `InteractiveCli::handle_git_operation`
(src/interactive.rs lines 802-815); the wildcard arm performs nothing. -/
def handleGitOperation : Nat → Option MenuAction
  | 0 => some MenuAction.enterFileMode
  | 1 => some MenuAction.addFilesToStaging
  | 2 => some MenuAction.commitChanges
  | 3 => some MenuAction.pushToRemote
  | 4 => some MenuAction.pullFromRemote
  | 5 => some MenuAction.switchBranch
  | 6 => some MenuAction.mergeBranch
  | 7 => some MenuAction.viewStatus
  | _ => none

/-- Index-to-action table of `InteractiveCli::handle_ai_operation`
(src/interactive.rs lines 817-829). -/
def handleAiOperation : Nat → Option MenuAction
  | 0 => some MenuAction.showPrDescription
  | 1 => some MenuAction.createPrWithAiDescription
  | 2 => some MenuAction.showGeneratedTests
  | 3 => some MenuAction.showImprovedCommitMessage
  | 4 => some MenuAction.startInteractiveCommitAction
  | 5 => some MenuAction.showChangelog
  | 6 => some MenuAction.showCodeReview
  | _ => none

/-- Index-to-action table of `InteractiveCli::handle_utility`
(src/interactive.rs lines 831-839). -/
def handleUtility : Nat → Option MenuAction
  | 0 => some MenuAction.updateGitStatusAction
  | 1 => some MenuAction.showConfiguration
  | 2 => some MenuAction.setQuit
  | _ => none

/-- Claim C10: the claim says the renderer's menu list and the input side's
list (navigation bounds and dispatch) agree element for element on every
tab.  They have drifted: on tab 0 the renderer shows 8 items (starting with
"Manage files") while `get_current_menu_items` returns 7 (starting with
"Add files to staging"), and on tab 1 the renderer shows 7 items (including
"Create PR with AI description" at index 1) while `get_current_menu_items`
returns 6 without it.  The dispatchers still carry 8 resp. 7 actions in
render order, so the last rendered item of each of those tabs
(`View status`, dispatched at index 7, and `Code review`, dispatched at
index 6) lies beyond the navigation bound and can never be selected.  Only
tab 2 agrees. -/
theorem c10_menu_lists_drift :
    (renderMenuItems 0).length = 8
    ∧ (getCurrentMenuItems 0).length = 7
    ∧ renderMenuItems 0 ≠ getCurrentMenuItems 0
    ∧ (renderMenuItems 1).length = 7
    ∧ (getCurrentMenuItems 1).length = 6
    ∧ renderMenuItems 1 ≠ getCurrentMenuItems 1
    ∧ renderMenuItems 2 = getCurrentMenuItems 2
    ∧ handleGitOperation 7 = some MenuAction.viewStatus
    ∧ handleGitOperation 8 = none
    ∧ handleAiOperation 6 = some MenuAction.showCodeReview
    ∧ handleAiOperation 7 = none
    ∧ ¬ 7 < (getCurrentMenuItems 0).length
    ∧ ¬ 6 < (getCurrentMenuItems 1).length := by
  decide

/-! ## Diff extraction (`src/git.rs`). -/

/-- `CommitInfo` from src/git.rs. -/
structure CommitInfo where
  hash : Str
  message : Str
  author : Str
  date : Str
  files_changed : List Str
  diff : Str
deriving DecidableEq, Repr

/-- `DiffInfo` from src/git.rs. -/
structure DiffInfo where
  commits : List CommitInfo
  total_files_changed : Nat
  total_additions : Int
  total_deletions : Int
deriving DecidableEq, Repr

/-- Fuel-bounded engine of `trimStartMatches`; the fuel only has to exceed
the number of removable copies of the pattern, and the initial string length
always does. -/
def trimAux : Nat → Str → Str → Str
  | 0, _, s => s
  | fuel + 1, pat, s =>
    if pat ≠ [] ∧ pat.isPrefixOf s then trimAux fuel pat (s.drop pat.length)
    else s

/-- Model of Rust `str::trim_start_matches`: repeatedly removes the pattern
from the front of the string as long as it stands there (the empty pattern
removes nothing). -/
def trimStartMatches (pat s : Str) : Str := trimAux s.length pat s

/-- Accumulator-based splitter behind `splitWhitespaceModel`. -/
def splitWsAux : Str → Str → List Str
  | [], acc => if acc = [] then [] else [acc.reverse]
  | c :: cs, acc =>
    if c.isWhitespace then
      if acc = [] then splitWsAux cs []
      else acc.reverse :: splitWsAux cs []
    else splitWsAux cs (c :: acc)

/-- Model of Rust `str::split_whitespace`: maximal runs of non-whitespace
characters, with no empty tokens. -/
def splitWhitespaceModel (s : Str) : List Str := splitWsAux s []

/-- The `filter` closure of `get_files_changed` (src/git.rs line 371). -/
def diffLineFilter (line : Str) : Bool :=
  (chars "diff --git").isPrefixOf line
    || (chars "+++").isPrefixOf line
    || (chars "---").isPrefixOf line

/-- The `filter_map` closure of `get_files_changed` (src/git.rs lines
372-385):

* a line starting with `diff --git` contributes its third
  whitespace-separated token with every leading `a/` removed
  (`trim_start_matches` removes the pattern repeatedly);
* a line starting with `+++` or `---` is first passed through
  `trim_start_matches("+++ ")` and then `trim_start_matches("--- ")`;
  if the result starts with `/dev/null` the line contributes nothing,
  otherwise every leading `a/` and then every leading `b/` is removed;
* other lines contribute nothing. -/
def getFilesChangedLine (line : Str) : Option Str :=
  if (chars "diff --git").isPrefixOf line then
    ((splitWhitespaceModel line)[2]?).map
      (fun t => trimStartMatches (chars "a/") t)
  else if (chars "+++").isPrefixOf line || (chars "---").isPrefixOf line then
    let path := trimStartMatches (chars "--- ")
      (trimStartMatches (chars "+++ ") line)
    if (chars "/dev/null").isPrefixOf path then none
    else some (trimStartMatches (chars "b/")
      (trimStartMatches (chars "a/") path))
  else none

/-- `get_files_changed` from src/git.rs (lines 369-389): lines of the raw
patch text are filtered, mapped through the extraction closure, and
collected into a `HashSet` before conversion back to a list.  The hash set
is modelled by first-occurrence deduplication; every statement made about
the result is at the level of the underlying set, so the unspecified
iteration order of the Rust `HashSet` is immaterial. -/
def getFilesChanged (diff : Str) : List Str :=
  (((rustLines diff).filter diffLineFilter).filterMap getFilesChangedLine).dedup

/-- Single (non-repeating) removal of a leading pattern, used to formalise
the claim's phrase "with a leading `a/` stripped". -/
def stripOnce (pat s : Str) : Str :=
  if pat.isPrefixOf s then s.drop pat.length else s

/-- Path-extraction rule transcribed from the words of claim C6 (the
specification's path-extraction rule): third whitespace token of a
`diff --git` line with a leading `a/` stripped once; a `+++`/`---` line
with its 4-character prefix stripped and then a leading `a/`/`b/` stripped
once each, discarded when the remaining path starts with `/dev/null`.
To be compared with `getFilesChangedLine`, which is read off the source. -/
def claimFilesChangedLine (line : Str) : Option Str :=
  if (chars "diff --git").isPrefixOf line then
    ((splitWhitespaceModel line)[2]?).map (fun t => stripOnce (chars "a/") t)
  else if (chars "+++").isPrefixOf line || (chars "---").isPrefixOf line then
    let path := line.drop 4
    if (chars "/dev/null").isPrefixOf path then none
    else some (stripOnce (chars "b/") (stripOnce (chars "a/") path))
  else none

/-- Claim C6: the claim's extraction rule strips a *single* leading `a/`
from the third token of a `diff --git` line, but the code uses
`trim_start_matches`, which strips the prefix *repeatedly*.  On the patch
line `diff --git a/a/x b/a/x` (a file `a/x` inside a top-level directory
named `a`) the code extracts `x` while the claim's rule extracts `a/x`, so
the two path sets differ. -/
theorem c6_counterexample :
    getFilesChanged (chars "diff --git a/a/x b/a/x") = [chars "x"]
    ∧ (rustLines (chars "diff --git a/a/x b/a/x")).filterMap
        claimFilesChangedLine = [chars "a/x"]
    ∧ chars "x" ≠ chars "a/x" := by
  decide

/-- A line rejected by the `filter` stage also produces nothing in the
`filter_map` stage: the leading filter of `get_files_changed` is redundant. -/
lemma getFilesChangedLine_eq_none (line : Str)
    (h : diffLineFilter line = false) : getFilesChangedLine line = none := by
  simp only [diffLineFilter, Bool.or_eq_false_iff] at h
  obtain ⟨⟨h1, h2⟩, h3⟩ := h
  simp only [getFilesChangedLine, h1, h2, h3]
  simp

/-- Dropping the redundant filter stage does not change the extracted
paths. -/
lemma filterMap_filter_diffLines (l : List Str) :
    (l.filter diffLineFilter).filterMap getFilesChangedLine
      = l.filterMap getFilesChangedLine := by
  induction l with
  | nil => rfl
  | cons a l ih =>
    by_cases hp : diffLineFilter a
    · simp [List.filter_cons, hp, List.filterMap_cons, ih]
    · simp only [Bool.not_eq_true] at hp
      simp [List.filter_cons, hp, List.filterMap_cons, ih,
        getFilesChangedLine_eq_none a hp]

/-- Claim C6 (amended): path extraction returns exactly the deduplicated set
of per-line contributions where, in the claim's rule, every strip of a
leading `a/`, `b/`, `+++ ` or `--- ` removes the prefix *repeatedly* (Rust
`trim_start_matches` semantics) and the `+++ ` strip is followed by a
`--- ` strip of the same line, the `/dev/null` test being applied after
prefix stripping and before `a/`/`b/` stripping, as in the source.  In
particular repeated stripping collapses `a/a/x` to `x`, a `+++ /dev/null`
line contributes no path, and the claim's three-line example still yields
the single path `src/x.rs`. -/
theorem c6_amended (diff : Str) :
    (getFilesChanged diff).toFinset
        = ((rustLines diff).filterMap getFilesChangedLine).toFinset
    ∧ (getFilesChanged diff).Nodup
    ∧ trimStartMatches (chars "a/") (chars "a/a/x") = chars "x"
    ∧ getFilesChanged (chars "+++ /dev/null") = []
    ∧ getFilesChanged
        (chars "diff --git a/src/x.rs b/src/x.rs\n--- a/src/x.rs\n+++ b/src/x.rs")
        = [chars "src/x.rs"] := by
  refine ⟨?_, ?_, by decide, by decide, by decide⟩
  · unfold getFilesChanged
    rw [filterMap_filter_diffLines]
    exact List.toFinset.ext_iff.mpr (fun x => List.mem_dedup)
  · exact List.nodup_dedup _

/-! ## The aggregate distinct-file count of `get_diff_info` and
`get_staged_changes`. -/

/-- The sequence of changed-file names flat-mapped out of a commit list, in
iteration order (`commits.iter().flat_map(|c| &c.files_changed)`). -/
def flatFilesChanged (commits : List CommitInfo) : List Str :=
  commits.foldr (fun c acc => c.files_changed ++ acc) []

/-- The union of the per-commit changed-file sets. -/
def unionFilesChanged (commits : List CommitInfo) : Finset Str :=
  commits.foldr (fun c acc => c.files_changed.toFinset ∪ acc) ∅

/-- Tail of `get_diff_info` (src/git.rs lines 288-299): once all commits are
collected, `total_files_changed` is computed as the size of the `HashSet` of
all flat-mapped file names (modelled as the length of the deduplicated
list), and the same commit list is then moved unchanged into the result. -/
def getDiffInfoResult (commits : List CommitInfo) : DiffInfo :=
  { commits := commits
    total_files_changed := (flatFilesChanged commits).dedup.length
    total_additions := 0
    total_deletions := 0 }

/-- Tail of `get_staged_changes` (src/git.rs lines 332-343), textually the
same aggregate computation over the at-most-one synthetic STAGED commit
record. -/
def getStagedChangesResult (commits : List CommitInfo) : DiffInfo :=
  { commits := commits
    total_files_changed := (flatFilesChanged commits).dedup.length
    total_additions := 0
    total_deletions := 0 }

/-- The flat-mapped file list carries exactly the union of the per-commit
file sets. -/
lemma toFinset_flatFilesChanged (commits : List CommitInfo) :
    (flatFilesChanged commits).toFinset = unionFilesChanged commits := by
  induction commits with
  | nil => rfl
  | cons c cs ih =>
    simp [flatFilesChanged, unionFilesChanged, List.toFinset_append] at ih ⊢
    rw [ih]

/-- Claim C5: for every collection of commits, the aggregate
`total_files_changed` of `get_diff_info` and of `get_staged_changes` equals
the cardinality of the union of the per-commit `files_changed` sets, and the
commit list stored in the result is exactly the list the aggregate was
computed over (the aggregate is computed once, before the list is moved). -/
theorem total_files_changed_is_union_card (commits : List CommitInfo) :
    (getDiffInfoResult commits).total_files_changed
        = (unionFilesChanged commits).card
    ∧ (getDiffInfoResult commits).commits = commits
    ∧ (getStagedChangesResult commits).total_files_changed
        = (unionFilesChanged commits).card
    ∧ (getStagedChangesResult commits).commits = commits := by
  have key : (flatFilesChanged commits).dedup.length
      = (unionFilesChanged commits).card := by
    rw [← toFinset_flatFilesChanged, List.card_toFinset]
  exact ⟨key, rfl, key, rfl⟩

/-! ## Controller state (`InteractiveCli`), the loading overlay, and the
commit action. -/

/-- `GitStatus` from src/interactive.rs. -/
structure GitStatus where
  branch : Str
  status : Str
  staged_files : List Str
  unstaged_files : List Str
  untracked_files : List Str
deriving DecidableEq, Repr

/-- The mutable state of `InteractiveCli` (src/interactive.rs lines 48-66),
without the injected configuration and terminal handles.  The two ratatui
`ListState` cursors are modelled by their `selected()` value. -/
structure AppState where
  git_status : GitStatus
  list_state : Option Nat
  current_tab : Nat
  should_quit : Bool
  commit_suggestions : List Str
  commit_list_state : Option Nat
  in_commit_mode : Bool
  in_file_mode : Bool
  file_items : List FileItem
  file_list_state : Option Nat
  in_display_mode : Bool
  display_content : Str
  display_title : Str
  in_loading_mode : Bool
  loading_message : Str
  loading_spinner : Nat
deriving DecidableEq, Repr

/-- `InteractiveCli::new` (src/interactive.rs lines 69-95). -/
def initState : AppState :=
  { git_status :=
      { branch := chars "unknown", status := chars "unknown",
        staged_files := [], unstaged_files := [], untracked_files := [] }
    list_state := none
    current_tab := 0
    should_quit := false
    commit_suggestions := []
    commit_list_state := none
    in_commit_mode := false
    in_file_mode := false
    file_items := []
    file_list_state := none
    in_display_mode := false
    display_content := []
    display_title := []
    in_loading_mode := false
    loading_message := []
    loading_spinner := 0 }

/-- `InteractiveCli::start_loading` (src/interactive.rs lines 1358-1362). -/
def startLoading (message : Str) (s : AppState) : AppState :=
  { s with in_loading_mode := true, loading_message := message,
           loading_spinner := 0 }

/-- `InteractiveCli::stop_loading` (src/interactive.rs lines 1364-1368). -/
def stopLoading (s : AppState) : AppState :=
  { s with in_loading_mode := false, loading_message := [],
           loading_spinner := 0 }

/-- The five interaction modes of the specification's `Mode` union. -/
inductive UiMode where
  | loading
  | commitSelection
  | fileStaging
  | contentDisplay
  | main
deriving DecidableEq, Repr

/-- The mode dispatch of `InteractiveCli::ui` (src/interactive.rs lines
234-246): the loading flag is tested first, then the commit, file and
display flags, with the main screen as the default. -/
def uiMode (s : AppState) : UiMode :=
  if s.in_loading_mode then UiMode.loading
  else if s.in_commit_mode then UiMode.commitSelection
  else if s.in_file_mode then UiMode.fileStaging
  else if s.in_display_mode then UiMode.contentDisplay
  else UiMode.main

/-- Claim C8: entering the loading overlay and completing it touches only
the three loading fields, so every mode flag and every mode content field is
unchanged and the controller resumes exactly the mode that was active when
loading began. -/
theorem loading_overlay_preserves_mode (s : AppState) (msg : Str)
    (h : s.in_loading_mode = false) :
    (stopLoading (startLoading msg s)).in_commit_mode = s.in_commit_mode
    ∧ (stopLoading (startLoading msg s)).in_file_mode = s.in_file_mode
    ∧ (stopLoading (startLoading msg s)).in_display_mode = s.in_display_mode
    ∧ (stopLoading (startLoading msg s)).commit_suggestions
        = s.commit_suggestions
    ∧ (stopLoading (startLoading msg s)).file_items = s.file_items
    ∧ (stopLoading (startLoading msg s)).display_content = s.display_content
    ∧ (stopLoading (startLoading msg s)).display_title = s.display_title
    ∧ (stopLoading (startLoading msg s)).file_list_state = s.file_list_state
    ∧ (stopLoading (startLoading msg s)).commit_list_state
        = s.commit_list_state
    ∧ uiMode (startLoading msg s) = UiMode.loading
    ∧ uiMode (stopLoading (startLoading msg s)) = uiMode s := by
  refine ⟨rfl, rfl, rfl, rfl, rfl, rfl, rfl, rfl, rfl, rfl, ?_⟩
  simp [uiMode, stopLoading, startLoading, h]

/-- A reachable state sitting in file-staging mode. -/
def sampleFileModeState : AppState :=
  { initState with
      in_file_mode := true
      file_items := [⟨chars "a.txt", FileStatus.modified, false⟩]
      file_list_state := some 0 }

/-- Witness for claim C8: loading entered from `FileStaging` resumes
exactly `FileStaging`, never `Main`. -/
theorem loading_overlay_preserves_mode_witness :
    uiMode (stopLoading (startLoading (chars "Generating commit suggestions...")
        sampleFileModeState)) = uiMode sampleFileModeState
    ∧ uiMode sampleFileModeState = UiMode.fileStaging :=
  ⟨(loading_overlay_preserves_mode sampleFileModeState
      (chars "Generating commit suggestions...") rfl).2.2.2.2.2.2.2.2.2.2,
   rfl⟩

/-- Failure of a collaborator call, as seen at a Rust `?` operator. -/
inductive CallError where
  | gitFailed
  | aiFailed
deriving DecidableEq, Repr

/-- The placeholder suggestions installed by `start_interactive_commit`
when the AI call *succeeds* with an empty list. -/
def fallbackSuggestions : List Str :=
  [chars "feat: add new functionality",
   chars "fix: resolve issue",
   chars "chore: update code"]

/-- `InteractiveCli::start_interactive_commit` (src/interactive.rs lines
978-1020), with the outcomes of the collaborator calls passed as oracles:
`stageAll` for the `git add .` spawn used when `all` is set, `stagedChanges`
for `git::get_staged_changes()`, and `aiSuggestions` for
`ai::generate_commit_suggestions(..)`.  The source applies `?` to the git
and AI calls, so an `Err` from either is returned immediately — before
`stop_loading` and before the empty-suggestions fallback runs. -/
def startInteractiveCommit (all : Bool) (stageAll : Except CallError Unit)
    (stagedChanges : Except CallError DiffInfo)
    (aiSuggestions : Except CallError (List Str)) (s : AppState) :
    Except CallError AppState :=
  match (if all then stageAll else Except.ok ()) with
  | Except.error e => Except.error e
  | Except.ok _ =>
    let s1 := startLoading (chars "Generating commit suggestions...") s
    match stagedChanges with
    | Except.error e => Except.error e
    | Except.ok diffInfo =>
      if diffInfo.commits = [] then Except.ok (stopLoading s1)
      else
        match aiSuggestions with
        | Except.error e => Except.error e
        | Except.ok suggestions =>
          let s2 := { s1 with commit_suggestions := suggestions }
          let s3 :=
            if s2.commit_suggestions = [] then
              { s2 with commit_suggestions := fallbackSuggestions }
            else s2
          let s4 := stopLoading s3
          Except.ok { s4 with in_commit_mode := true,
                              commit_list_state := some 0 }

/-- A one-record staged change set, as produced for a repository with one
staged file. -/
def sampleStagedDiff : DiffInfo :=
  { commits := [⟨chars "STAGED", chars "Staged changes", chars "Current user",
                 chars "", [chars "src/x.rs"], chars ""⟩]
    total_files_changed := 1
    total_additions := 0
    total_deletions := 0 }

/-- Claim C4: the claim says a failing AI call is caught at the mode-action
boundary and the controller reaches the success state with the three
placeholder suggestions.  In the code the `?` on
`ai::generate_commit_suggestions` propagates the failure out of
`start_interactive_commit` — and from there out of `handle_selection` and
the event loop — while the controller is still in loading mode; the
placeholder fallback is reached only when the call *succeeds* with an empty
suggestion list (second conjunct). -/
theorem c4_ai_failure_propagates :
    startInteractiveCommit false (Except.ok ()) (Except.ok sampleStagedDiff)
        (Except.error CallError.aiFailed) initState
      = Except.error CallError.aiFailed
    ∧ startInteractiveCommit false (Except.ok ()) (Except.ok sampleStagedDiff)
        (Except.ok []) initState
      = Except.ok { initState with
                      commit_suggestions := fallbackSuggestions
                      in_commit_mode := true
                      commit_list_state := some 0 } := by
  exact ⟨rfl, rfl⟩

/-! ## The event loop `InteractiveCli::run` (src/interactive.rs lines
97-232): raw mode is enabled at entry; the loop body performs fallible
operations behind `?`; `disable_raw_mode` stands after the loop and runs
only when the loop exits through the `should_quit` break. -/

/-- Outcome of one iteration of the event loop: the iteration either
completes normally, hits a fallible call returning `Err` (every such call
in the loop body carries `?`), or sets the quit flag. -/
inductive RunEvent where
  | iterOk
  | iterErr
  | iterQuit
deriving DecidableEq, Repr

/-- How `run` returned and whether `disable_raw_mode` was executed on the
way out. -/
structure RunOutcome where
  returnedOk : Bool
  rawModeRestored : Bool
deriving DecidableEq, Repr

/-- The loop of `run` over a stream of iteration outcomes.  An `Err` inside
an iteration is propagated by `?` and returns from `run` at once, so
`disable_raw_mode` (which stands after the loop) is not executed; the quit
flag breaks out of the loop into the teardown code.  `none` means the
stream ended with the loop still running. -/
def runLoop : List RunEvent → Option RunOutcome
  | [] => none
  | RunEvent.iterErr :: _ => some ⟨false, false⟩
  | RunEvent.iterQuit :: _ => some ⟨true, true⟩
  | RunEvent.iterOk :: rest => runLoop rest

/-- `run` after raw mode has been enabled: the initial unconditional
`update_git_status().await?` stands before the loop, so if it fails `run`
returns its error with raw mode still enabled; otherwise the loop runs. -/
def runModel (initialStatusOk : Bool) (events : List RunEvent) :
    Option RunOutcome :=
  if initialStatusOk then runLoop events else some ⟨false, false⟩

/-- Claim C9: the claim says terminal raw mode is torn down on every exit
path of `run`, including failure paths.  Raw mode is torn down only on the
quit path: when the initial status refresh fails, or when any iteration's
fallible operation returns `Err`, the `?` operator returns from `run` before
the `disable_raw_mode` call after the loop is reached. -/
theorem c9_error_path_skips_teardown :
    runModel false [] = some ⟨false, false⟩
    ∧ runModel true [RunEvent.iterOk, RunEvent.iterErr]
        = some ⟨false, false⟩
    ∧ runModel true [RunEvent.iterOk, RunEvent.iterQuit]
        = some ⟨true, true⟩ := by
  decide
